import Mathlib

/-!
Shallow embedding of the Achievement Management System (`app.py`, `models.py`)
and proofs about the behaviour of its handlers.

Conventions used throughout:
* Python `None`-able strings are `Option String`; `request.form.get` results
  are `Option String` (absent key = `none`).
* Machine state touched by the handlers (database rows, saved upload files)
  is passed explicitly and returned in the result.
* An exception escaping a handler is modelled by an explicit `raised`
  response constructor.
* External collaborators (werkzeug's password primitives and
  `secure_filename`) are modelled from the spec; the doc comment of each
  such definition says so.
-/

/-! ## Credential module (`hash_password` / `verify_password`) -/

/-- Modelled from the spec: werkzeug's `generate_password_hash`, described as
returning "a salted, algorithm-tagged hash string".  The randomness of the
salt is made explicit as a parameter; the digest is idealized as an injective
record of the salted password (`salt ++ "$" ++ password`), which is what
the spec's stated properties of the primitive require. -/
def generate_password_hash (salt : String) (password : String) : String :=
  salt ++ "$" ++ password

/-- Split a character list at the first `'$'`: `some (before, after)`,
or `none` when no `'$'` occurs (a malformed hash). -/
def splitHash : List Char → Option (List Char × List Char)
  | [] => none
  | c :: rest =>
    if c = '$' then some ([], rest)
    else
      match splitHash rest with
      | some (a, b) => some (c :: a, b)
      | none => none

/-- Modelled from the spec: werkzeug's `check_password_hash`, which recovers
the salt from the stored hash and recomputes the digest; a hash that does not
have the expected format makes the primitive fail (modelled as `.error`). -/
def check_password_hash (storedHash : String) (password : String) :
    Except String Bool :=
  match splitHash storedHash.data with
  | some (_, digest) => .ok (digest == password.data)
  | none => .error "Invalid hash format"

/-- Embeds `hash_password` from `app.py`: raises `ValueError` (modelled as
`.error`) when the password is `None` or empty, otherwise delegates to
`generate_password_hash` (whose salt randomness is an explicit parameter). -/
def hash_password (salt : String) (plain_password : Option String) :
    Except String String :=
  match plain_password with
  | none => .error "Password cannot be empty or None"
  | some p =>
    if p = "" then .error "Password cannot be empty or None"
    else .ok (generate_password_hash salt p)

/-- Embeds `verify_password` from `app.py`: `False` for `None` arguments,
`False` for empty arguments, and `False` when the underlying primitive
fails; otherwise the primitive's verdict. -/
def verify_password (stored_hash provided_password : Option String) : Bool :=
  match stored_hash, provided_password with
  | some h, some p =>
    if h = "" then false
    else if p = "" then false
    else
      match check_password_hash h p with
      | .ok b => b
      | .error _ => false
  | _, _ => false

lemma splitHash_append (s rest : List Char) (hs : '$' ∉ s) :
    splitHash (s ++ '$' :: rest) = some (s, rest) := by
  induction s with
  | nil => simp [splitHash]
  | cons c cs ih =>
    have hc : c ≠ '$' := fun h => hs (h ▸ List.mem_cons_self c cs)
    have hcs : '$' ∉ cs := fun h => hs (List.mem_cons_of_mem _ h)
    simp [splitHash, hc, ih hcs]

lemma generate_data (salt p : String) :
    (generate_password_hash salt p).data = salt.data ++ '$' :: p.data := by
  simp [generate_password_hash]

lemma generate_ne_empty (salt p : String) :
    generate_password_hash salt p ≠ "" := by
  intro h
  have := congrArg String.data h
  rw [generate_data] at this
  simp at this

lemma check_generate (salt p q : String) (hs : '$' ∉ salt.data) :
    check_password_hash (generate_password_hash salt p) q =
      .ok (p.data == q.data) := by
  simp [check_password_hash, generate_data, splitHash_append _ _ hs]

/-! ## String helpers embedded from Python built-ins -/

/-- The characters Python's `str.strip()` removes (ASCII whitespace;
the model restricts to the ASCII range the handlers ever see). -/
def isPySpace (c : Char) : Bool :=
  c = ' ' || c = '\t' || c = '\n' || c = '\r' || c = '\x0b' || c = '\x0c'

/-- Embeds Python `str.strip()` on the character list of a string. -/
def pyStrip (cs : List Char) : List Char :=
  ((cs.dropWhile isPySpace).reverse.dropWhile isPySpace).reverse

/-- Digit-and-underscore shape check for the body of a Python integer
literal: every `'_'` must be followed by a digit, and the final character
must be a digit.  (The first character is checked by the caller.) -/
def intBody : List Char → Bool
  | [] => true
  | [c] => c.isDigit
  | c :: d :: rest => (c.isDigit || (c = '_' && d.isDigit)) && intBody (d :: rest)

/-- Numeric value of a digit string (underscores already removed). -/
def digitsToNat (cs : List Char) : Nat :=
  cs.foldl (fun a c => a * 10 + (c.toNat - 48)) 0

/-- Unsigned part of Python `int(str)`: nonempty, starts with a digit,
underscores only between digits. -/
def pyIntCore (cs : List Char) : Option Nat :=
  match cs with
  | [] => none
  | c :: _ =>
    if c.isDigit && intBody cs then some (digitsToNat (cs.filter (fun x => x ≠ '_')))
    else none

/-- Embeds Python `int(str)`: strips whitespace, accepts an optional sign,
then a digit string with underscore grouping.  `none` models the
`ValueError` that `int` raises on any other input. -/
def pyInt (s : String) : Option Int :=
  match pyStrip s.data with
  | '-' :: rest => (pyIntCore rest).map (fun n => -(n : Int))
  | '+' :: rest => (pyIntCore rest).map (fun n => (n : Int))
  | t => (pyIntCore t).map (fun n => (n : Int))

/-! ## Calendar dates (`datetime.date`, `strptime("%Y-%m-%d")`) -/

/-- A calendar date as `datetime.date` carries it. -/
structure DateD where
  year : Nat
  month : Nat
  day : Nat
deriving DecidableEq, Repr

/-- Gregorian leap-year rule used by `datetime`. -/
def isLeap (y : Nat) : Bool :=
  (y % 4 = 0 && y % 100 ≠ 0) || y % 400 = 0

/-- Days in a month per the Gregorian calendar (`datetime`'s validation). -/
def daysInMonth (y m : Nat) : Nat :=
  if m = 2 then (if isLeap y then 29 else 28)
  else if m = 4 || m = 6 || m = 9 || m = 11 then 30
  else 31

/-- Split a character list on `'-'` (embeds the `"-"` separators of the
`%Y-%m-%d` format). -/
def splitDash : List Char → List (List Char)
  | [] => [[]]
  | c :: rest =>
    if c = '-' then [] :: splitDash rest
    else
      match splitDash rest with
      | g :: gs => (c :: g) :: gs
      | [] => [[c]]

/-- `%Y` in CPython's `_strptime`: exactly four digits. -/
def yearFieldOk (cs : List Char) : Bool :=
  cs.length = 4 && cs.all Char.isDigit

/-- `%m` in CPython's `_strptime`: one or two digits with value 1..12. -/
def monthFieldOk (cs : List Char) : Bool :=
  (cs.length = 1 || cs.length = 2) && cs.all Char.isDigit &&
    1 ≤ digitsToNat cs && digitsToNat cs ≤ 12

/-- `%d` in CPython's `_strptime`: one or two digits with value 1..31, or a
space followed by a nonzero digit. -/
def dayFieldOk (cs : List Char) : Bool :=
  ((cs.length = 1 || cs.length = 2) && cs.all Char.isDigit &&
    1 ≤ digitsToNat cs && digitsToNat cs ≤ 31) ||
  (match cs with
   | [' ', c] => c.isDigit && c ≠ '0'
   | _ => false)

/-- Day value including the `' 5'` form accepted by `%d`. -/
def dayFieldVal (cs : List Char) : Nat :=
  digitsToNat (cs.filter Char.isDigit)

/-- Embeds `datetime.datetime.strptime(s, "%Y-%m-%d").date()`: field-shape
check per `_strptime`'s regular expressions, then `datetime`'s calendar
validation (month already 1..12 by the field check; day checked against the
month's length; year must be at least `MINYEAR = 1`).  `none` models the
`ValueError` the handler catches. -/
def parse_date (s : String) : Option DateD :=
  match splitDash s.data with
  | [ys, ms, ds] =>
    if yearFieldOk ys && monthFieldOk ms && dayFieldOk ds then
      let y := digitsToNat ys
      let m := digitsToNat ms
      let d := dayFieldVal ds
      if 1 ≤ y && d ≤ daysInMonth y m then some ⟨y, m, d⟩ else none
    else none
  | _ => none

/-- Chronological strict order on dates (how the SQL layer compares the
ISO-formatted `Date` column). -/
def dateLtB (a b : DateD) : Bool :=
  a.year < b.year ||
    (a.year = b.year &&
      (a.month < b.month || (a.month = b.month && a.day < b.day)))

/-- Chronological non-strict order on dates. -/
def dateLeB (a b : DateD) : Bool :=
  dateLtB a b || a = b

/-- The previous calendar day (month/year rollover per the Gregorian
calendar), embedding one day of `datetime.timedelta` subtraction. -/
def prevDay (d : DateD) : DateD :=
  if d.day > 1 then ⟨d.year, d.month, d.day - 1⟩
  else if d.month > 1 then ⟨d.year, d.month - 1, daysInMonth d.year (d.month - 1)⟩
  else ⟨d.year - 1, 12, 31⟩

/-- Embeds `date - timedelta(days=n)`. -/
def subDays : DateD → Nat → DateD
  | d, 0 => d
  | d, n + 1 => subDays (prevDay d) n

/-! ## Request-time clock (`datetime.datetime.now()`) -/

/-- The wall-clock instant a handler observes via `datetime.now()`. -/
structure DateTime where
  year : Nat
  month : Nat
  day : Nat
  hour : Nat
  minute : Nat
  second : Nat
deriving DecidableEq, Repr

/-- The calendar date of a wall-clock instant (`datetime.now().date()`). -/
def DateTime.dateOf (t : DateTime) : DateD :=
  ⟨t.year, t.month, t.day⟩

/-- Decimal digit character for `n % 10`. -/
def digitChar (n : Nat) : Char :=
  Char.ofNat (48 + n % 10)

/-- Two-digit zero-padded field of `strftime`. -/
def pad2 (n : Nat) : List Char :=
  [digitChar (n / 10), digitChar n]

/-- Four-digit zero-padded field of `strftime` (`%Y`; `datetime` years are
at most 9999, so no truncation occurs on reachable inputs). -/
def pad4 (n : Nat) : List Char :=
  [digitChar (n / 1000), digitChar (n / 100), digitChar (n / 10), digitChar n]

/-- Embeds `datetime.now().strftime("%Y%m%d%H%M%S")`. -/
def formatTimestamp (t : DateTime) : String :=
  String.mk (pad4 t.year ++ pad2 t.month ++ pad2 t.day ++
             pad2 t.hour ++ pad2 t.minute ++ pad2 t.second)

lemma digitChar_isDigit (n : Nat) : (digitChar n).isDigit = true := by
  have h : n % 10 < 10 := Nat.mod_lt _ (by norm_num)
  unfold digitChar
  generalize n % 10 = r at h ⊢
  interval_cases r <;> decide

lemma formatTimestamp_length (t : DateTime) :
    (formatTimestamp t).length = 14 := by
  simp [formatTimestamp, String.length, pad4, pad2]

lemma formatTimestamp_digits (t : DateTime) :
    (formatTimestamp t).data.all Char.isDigit = true := by
  simp [formatTimestamp, pad4, pad2, digitChar_isDigit]

/-! ## Data model (`models.py`) -/

/-- A `student` table row.  Nullable columns are `Option`s. -/
structure Student where
  student_name : String
  student_id : String
  email : String
  phone_number : Option String
  password : String
  student_gender : Option String
  student_dept : Option String
deriving DecidableEq, Repr

/-- A `teacher` table row. -/
structure Teacher where
  teacher_name : String
  teacher_id : String
  email : String
  phone_number : Option String
  password : String
  teacher_gender : Option String
  teacher_dept : Option String
deriving DecidableEq, Repr

/-- An `achievements` table row.  `student_id`, `teacher_id` and the four
required text columns are carried as `Option` because the handler passes
form values through unchanged; the `NOT NULL` constraints are enforced at
commit time (see `commitOk`).  `created_at` is the server-assigned creation
timestamp (`datetime.utcnow`), modelled as an abstract tick. -/
structure Achievement where
  id : Nat
  student_id : Option String
  teacher_id : Option String
  achievement_type : Option String
  event_name : Option String
  achievement_date : DateD
  organizer : Option String
  position : Option String
  achievement_description : Option String
  certificate_path : Option String
  symposium_theme : Option String
  programming_language : Option String
  coding_platform : Option String
  paper_title : Option String
  journal_name : Option String
  conference_level : Option String
  conference_role : Option String
  team_size : Option Int
  project_title : Option String
  database_type : Option String
  difficulty_level : Option String
  other_description : Option String
  created_at : Nat
deriving DecidableEq, Repr

/-- The cookie session as the handlers read it (`session.get(...)`;
an absent key is `none`, `logged_in` is only ever set to `True`). -/
structure Session where
  logged_in : Bool
  student_id : Option String
  student_name : Option String
  student_dept : Option String
  teacher_id : Option String
  teacher_name : Option String
  teacher_dept : Option String
deriving DecidableEq, Repr

/-- Python truthiness test `not session.get(key)` for a string-valued
session key: true for an absent key and for the empty string. -/
def falsyOpt (o : Option String) : Bool :=
  match o with
  | none => true
  | some s => s == ""

/-- The empty session (no keys set). -/
def emptySession : Session :=
  ⟨false, none, none, none, none, none, none⟩

/-- Embeds `Student.query.filter_by(student_id=sid).first()`.  A `None`
identifier compares as SQL `NULL` and matches no row. -/
def lookupStudent (students : List Student) (sid : Option String) :
    Option Student :=
  match sid with
  | none => none
  | some s => students.find? (fun st => st.student_id == s)

/-- Embeds `Teacher.query.filter_by(teacher_id=tid).first()`. -/
def lookupTeacher (teachers : List Teacher) (tid : Option String) :
    Option Teacher :=
  match tid with
  | none => none
  | some t => teachers.find? (fun te => te.teacher_id == t)

/-! ## Upload validator (`allowed_file`, `secure_filename`, timestamps) -/

/-- The extension allow-list of `allowed_file`. -/
def ALLOWED_EXTENSIONS : List (List Char) :=
  ["pdf".data, "png".data, "jpg".data, "jpeg".data]

/-- The substring after the last `'.'` (embeds
`filename.rsplit('.', 1)[1]`), lower-cased as the source does. -/
def lastExt (cs : List Char) : List Char :=
  ((cs.reverse.takeWhile (fun c => c ≠ '.')).reverse).map Char.toLower

/-- Embeds `allowed_file` from `app.py`: a dot must occur and the final
extension, compared lower-cased, must be on the allow-list. -/
def allowed_file (filename : String) : Bool :=
  filename.data.contains '.' && ALLOWED_EXTENSIONS.contains (lastExt filename.data)

/-- Characters `secure_filename` keeps. -/
def keepFileChar (c : Char) : Bool :=
  c.isAlphanum || c = '_' || c = '.' || c = '-'

/-- Modelled from the spec: werkzeug's `secure_filename` ("sanitize the
filename (strip path components/unsafe characters)").  Path separators and
whitespace become underscores, other unsafe characters are dropped, and
leading/trailing dots and underscores are stripped. -/
def secure_filename (filename : String) : String :=
  let mapped := filename.data.map
    (fun c => if c = '/' || c = '\\' || isPySpace c then '_' else c)
  let kept := mapped.filter keepFileChar
  String.mk
    (((kept.dropWhile (fun c => c = '.' || c = '_')).reverse.dropWhile
        (fun c => c = '.' || c = '_')).reverse)

/-- A `werkzeug.FileStorage` value as far as the handler inspects it
(`file.filename`; the `if file and file.filename` test is true exactly when
the filename is nonempty). -/
structure FilePart where
  filename : String
deriving DecidableEq, Repr

/-! ## Achievement submission (`submit_achievements`) -/

/-- The POST form of `/submit_achievements` (`request.form.get` values plus
the optional `certificate` part of `request.files`). -/
structure SubmitForm where
  student_id : Option String
  certificate : Option FilePart
  team_size : Option String
  achievement_date : Option String
  achievement_type : Option String
  event_name : Option String
  organizer : Option String
  position : Option String
  achievement_description : Option String
  symposium_theme : Option String
  programming_language : Option String
  coding_platform : Option String
  paper_title : Option String
  journal_name : Option String
  conference_level : Option String
  conference_role : Option String
  project_title : Option String
  database_type : Option String
  difficulty_level : Option String
  other_description : Option String
deriving DecidableEq, Repr

/-- A handler response: a redirect, a rendered template with its optional
error/success messages, or an exception escaping the handler. -/
inductive HResp where
  | redirect (endpoint : String)
  | render (template : String) (error : Option String) (success : Option String)
  | raised (exn : String)
deriving DecidableEq, Repr

/-- The observable outcome of one submission request: the response, the
`achievements` table afterwards, and the upload directory afterwards. -/
structure SubmitResult where
  resp : HResp
  achievements : List Achievement
  files : List String
deriving DecidableEq, Repr

/-- Outcome of the certificate block (lines 285-299 of `app.py`):
either the invalid-file-type rejection, or the certificate path to record
(with the upload directory after any `file.save`). -/
inductive CertOutcome where
  | rejected
  | ok (certificate_path : Option String) (files : List String)
deriving DecidableEq, Repr

/-- Embeds the certificate block of `submit_achievements`: nothing happens
without a nonempty filename; an allowed extension saves
`<timestamp>_<secure_filename>` and records `uploads/<that>`; a disallowed
extension rejects. -/
def certStep (now : DateTime) (files : List String) (cert : Option FilePart) :
    CertOutcome :=
  match cert with
  | none => .ok none files
  | some file =>
    if file.filename = "" then .ok none files
    else if allowed_file file.filename then
      let secure_name := formatTimestamp now ++ "_" ++ secure_filename file.filename
      .ok (some ("uploads/" ++ secure_name)) (files ++ [secure_name])
    else .rejected

/-- Outcome of the `team_size` line (line 302 of `app.py`):
`int(team_size_raw)` is evaluated outside any `try`, so a parse failure is
an uncaught `ValueError`. -/
inductive TeamSizeOutcome where
  | raisedVE
  | ok (team_size : Option Int)
deriving DecidableEq, Repr

/-- Embeds `team_size = int(team_size_raw) if team_size_raw and
team_size_raw.strip() else None`. -/
def teamSizeStep (raw : Option String) : TeamSizeOutcome :=
  match raw with
  | none => .ok none
  | some s =>
    if s = "" then .ok none
    else if pyStrip s.data = [] then .ok none
    else
      match pyInt s with
      | some n => .ok (some n)
      | none => .raisedVE

/-- The `NOT NULL` constraints of the `achievements` table, checked by the
store at `db.session.commit()` (SQLite enforces `NOT NULL`; foreign keys
are not enabled).  A violation raises inside the handler's `try`, which
rolls back and renders the generic error. -/
def commitOk (a : Achievement) : Bool :=
  !a.student_id.isNone && !a.teacher_id.isNone && !a.achievement_type.isNone &&
    !a.event_name.isNone && !a.organizer.isNone && !a.position.isNone

/-- The `Achievement(...)` constructor call of `submit_achievements`:
form fields pass through verbatim, the certificate path and parsed values
fill their columns, `created_at` is server-assigned and `id` is the next
autoincrement value. -/
def mkAchievement (createdAt : Nat) (achs : List Achievement) (sess : Session)
    (form : SubmitForm) (certificate_path : Option String)
    (team_size : Option Int) (achievement_date : DateD) : Achievement :=
  ⟨achs.length + 1, form.student_id, sess.teacher_id,
    form.achievement_type, form.event_name, achievement_date,
    form.organizer, form.position, form.achievement_description,
    certificate_path, form.symposium_theme, form.programming_language,
    form.coding_platform, form.paper_title, form.journal_name,
    form.conference_level, form.conference_role, team_size,
    form.project_title, form.database_type, form.difficulty_level,
    form.other_description, createdAt⟩

/-- The submission handler after the certificate block: `team_size`, the
date checks, then construction and commit of the `Achievement` row.
`files1` is the upload directory after any certificate save. -/
def submitRest (createdAt : Nat) (achs : List Achievement) (sess : Session)
    (form : SubmitForm) (student_name : String)
    (certificate_path : Option String) (files1 : List String) : SubmitResult :=
  match teamSizeStep form.team_size with
  | .raisedVE => ⟨.raised "ValueError", achs, files1⟩
  | .ok team_size =>
    match form.achievement_date with
    | none =>
      ⟨.render "submit_achievements.html" (some "Achievement date is required.") none,
        achs, files1⟩
    | some date_str =>
      if date_str = "" then
        ⟨.render "submit_achievements.html" (some "Achievement date is required.") none,
          achs, files1⟩
      else
        match parse_date date_str with
        | none =>
          ⟨.render "submit_achievements.html"
              (some "Invalid date format. Please use YYYY-MM-DD.") none,
            achs, files1⟩
        | some achievement_date =>
          if commitOk (mkAchievement createdAt achs sess form certificate_path
              team_size achievement_date) then
            ⟨.render "submit_achievements.html" none
                (some ("Achievement of " ++ student_name ++
                  " has been successfully registered!!")),
              achs ++ [mkAchievement createdAt achs sess form certificate_path
                team_size achievement_date],
              files1⟩
          else
            ⟨.render "submit_achievements.html"
                (some "An error occurred. Please try again.") none,
              achs, files1⟩

/-- Embeds the POST path of `submit_achievements` from `app.py`: session
gate (`logged_in` truthy and `teacher_id` truthy), student resolution,
certificate block, then `submitRest`. -/
def submit_achievements (now : DateTime) (createdAt : Nat)
    (students : List Student) (achs : List Achievement) (files : List String)
    (sess : Session) (form : SubmitForm) : SubmitResult :=
  if !sess.logged_in || falsyOpt sess.teacher_id then
    ⟨.redirect "teacher", achs, files⟩
  else
    match lookupStudent students form.student_id with
    | none =>
      ⟨.render "submit_achievements.html"
          (some "Student ID does not exist in the system.") none,
        achs, files⟩
    | some student_obj =>
      match certStep now files form.certificate with
      | .rejected =>
        ⟨.render "submit_achievements.html"
            (some "Invalid file type. Please upload PDF, PNG, JPG, or JPEG files.")
            none,
          achs, files⟩
      | .ok certificate_path files1 =>
        submitRest createdAt achs sess form student_obj.student_name
          certificate_path files1

/-! ## Login handlers (`student`, `teacher`) -/

/-- The outcome of a POST to a login route: a redirect carrying the updated
session, or a re-rendered login form. -/
inductive LoginResult where
  | redirect (endpoint : String) (newSession : Session)
  | render (template : String) (error : Option String)
deriving DecidableEq, Repr

/-- Embeds the POST path of the `student` route: look up the identifier,
verify the password, establish the session on success, otherwise re-render
with the generic invalid-credentials message. -/
def student_login (students : List Student) (prev : Session)
    (sid password : Option String) : LoginResult :=
  match lookupStudent students sid with
  | some s =>
    if verify_password (some s.password) password then
      .redirect "student-dashboard"
        { prev with
            logged_in := true
            student_id := some s.student_id
            student_name := some s.student_name
            student_dept := s.student_dept }
    else
      .render "student.html" (some "Invalid credentials. Please try again.")
  | none =>
    .render "student.html" (some "Invalid credentials. Please try again.")

/-- Embeds the POST path of the `teacher` route. -/
def teacher_login (teachers : List Teacher) (prev : Session)
    (tid password : Option String) : LoginResult :=
  match lookupTeacher teachers tid with
  | some t =>
    if verify_password (some t.password) password then
      .redirect "teacher-dashboard"
        { prev with
            logged_in := true
            teacher_id := some t.teacher_id
            teacher_name := some t.teacher_name
            teacher_dept := t.teacher_dept }
    else
      .render "teacher.html" (some "Invalid credentials. Please try again.")
  | none =>
    .render "teacher.html" (some "Invalid credentials. Please try again.")

/-! ## Teacher dashboard and all-achievements listing -/

/-- SQLAlchemy equality filter against the session's teacher identifier
(`filter_by(teacher_id=teacher_id)` / `Achievement.teacher_id ==
teacher_id`); a `None` value compares as `IS NULL`. -/
def tidMatch (tid : Option String) (a : Achievement) : Bool :=
  a.teacher_id == tid

/-- Insert into a list sorted descending by `lt`, after every element
strictly greater: inserting left-to-right keeps earlier-inserted elements
first among equals, i.e. ties resolve to insertion order. -/
def insertDescBy (lt : Achievement → Achievement → Bool) (a : Achievement) :
    List Achievement → List Achievement
  | [] => [a]
  | b :: bs => if lt b a then a :: b :: bs else b :: insertDescBy lt a bs

/-- Stable descending sort (embeds `ORDER BY ... DESC` over rows held in
insertion order). -/
def sortDescBy (lt : Achievement → Achievement → Bool)
    (l : List Achievement) : List Achievement :=
  l.foldl (fun acc a => insertDescBy lt a acc) []

/-- Strict order on creation timestamps (`Achievement.created_at`). -/
def ltCreated (x y : Achievement) : Bool :=
  x.created_at < y.created_at

/-- Strict chronological order on achievement dates. -/
def ltDate (x y : Achievement) : Bool :=
  dateLtB x.achievement_date y.achievement_date

/-- The denormalized teacher display fields passed to the dashboard
template. -/
structure TeacherData where
  id : Option String
  name : Option String
  dept : Option String
deriving DecidableEq, Repr

/-- The `stats` dictionary of the dashboard template. -/
structure DashStats where
  total_achievements : Nat
  students_managed : Nat
  this_week : Nat
deriving DecidableEq, Repr

/-- The outcome of `/teacher-dashboard`. -/
inductive DashResult where
  | redirect (endpoint : String)
  | render (teacher : TeacherData) (stats : DashStats)
      (recent_entries : List Achievement)
deriving DecidableEq, Repr

/-- Embeds the `teacher_dashboard` handler from `app.py`: the only gate is
the `logged_in` flag; the aggregates are scoped by the session's
`teacher_id` (whatever it is).  `count(distinct student_id)` is embedded as
the length of the deduplicated projection; the week filter is
`achievement_date >= (now - 7 days).date()`; `recent_entries` is the
5-element prefix of the rows sorted by `created_at` descending. -/
def teacher_dashboard (now : DateTime) (achs : List Achievement)
    (sess : Session) : DashResult :=
  if !sess.logged_in then .redirect "teacher"
  else
    let teacher_id := sess.teacher_id
    let mine := achs.filter (tidMatch teacher_id)
    let total_achievements := mine.length
    let students_managed := (mine.map (fun a => a.student_id)).dedup.length
    let one_week_ago := subDays now.dateOf 7
    let this_week :=
      (achs.filter (fun a =>
        tidMatch teacher_id a && dateLeB one_week_ago a.achievement_date)).length
    let recent_entries := (sortDescBy ltCreated mine).take 5
    .render ⟨sess.teacher_id, sess.teacher_name, sess.teacher_dept⟩
      ⟨total_achievements, students_managed, this_week⟩ recent_entries

/-- The outcome of `/all-achievements`. -/
inductive ListResult where
  | redirect (endpoint : String)
  | render (achievements : List Achievement)
deriving DecidableEq, Repr

/-- Embeds the `all_achievements` handler from `app.py`: gate on
`logged_in` only, then every achievement of the session's `teacher_id`
ordered by achievement date descending. -/
def all_achievements (achs : List Achievement) (sess : Session) : ListResult :=
  if !sess.logged_in then .redirect "teacher"
  else
    .render (sortDescBy ltDate (achs.filter (tidMatch sess.teacher_id)))

/-! ## Spec-side definitions (quoted from the spec's words, for comparison
with the handlers) -/

/-- Per the spec, a session is an active teacher session when it was
established by a teacher login: the logged-in flag plus a (truthy) teacher
identifier. -/
def activeTeacherSession (sess : Session) : Bool :=
  sess.logged_in && !falsyOpt sess.teacher_id

/-- The achievements recorded by teacher `t`. -/
def achievementsOfTeacher (achs : List Achievement) (t : String) :
    List Achievement :=
  achs.filter (fun a => a.teacher_id == some t)

/-- Spec aggregate: total achievement count of teacher `t`. -/
def specTotalCount (achs : List Achievement) (t : String) : Nat :=
  (achievementsOfTeacher achs t).length

/-- Spec aggregate: number of distinct students with at least one
achievement under teacher `t`. -/
def specDistinctStudents (achs : List Achievement) (t : String) : Nat :=
  ((achievementsOfTeacher achs t).map (fun a => a.student_id)).toFinset.card

/-- Count of teacher `t`'s achievements dated on or after `cutoff`
(the window the code actually computes: no upper bound). -/
def specSinceCount (cutoff : DateD) (achs : List Achievement) (t : String) :
    Nat :=
  ((achievementsOfTeacher achs t).filter
    (fun a => dateLeB cutoff a.achievement_date)).length

/-- Count of teacher `t`'s achievements falling within the trailing 7-day
window ending at `today` inclusive (the window the claim states). -/
def specTrailingWeekCount (today : DateD) (achs : List Achievement)
    (t : String) : Nat :=
  ((achievementsOfTeacher achs t).filter
    (fun a => dateLeB (subDays today 7) a.achievement_date &&
      dateLeB a.achievement_date today)).length

/-- Spec aggregate: the 5 most-recently-created achievements of teacher
`t`, ordered by creation timestamp descending, ties broken by insertion
order. -/
def specRecent5 (achs : List Achievement) (t : String) : List Achievement :=
  (sortDescBy ltCreated (achievementsOfTeacher achs t)).take 5

/-! ## Concrete inputs shared by witnesses and counterexamples -/

/-- A well-formed submission form: student `S1`, no certificate, no team
size, a valid date, the four required text fields set. -/
def baseForm : SubmitForm :=
  ⟨some "S1", none, none, some "2024-01-05", some "competition", some "EventX",
   some "OrgY", some "1st", none, none, none, none, none, none, none, none,
   none, none, none, none⟩

/-- A session as a teacher login for `T1` establishes it. -/
def teacherSession : Session :=
  ⟨true, none, none, none, some "T1", some "Tia", some "CS"⟩

/-- A session as a student login for `S1` establishes it. -/
def studentSession : Session :=
  ⟨true, some "S1", some "Alice", some "CS", none, none, none⟩

/-- A registered student row. -/
def studentS1 : Student :=
  ⟨"Alice", "S1", "a@x.com", none, "hpw", none, some "CS"⟩

/-- A request-time clock value. -/
def now0 : DateTime := ⟨2024, 1, 2, 3, 4, 5⟩

/-- Another request-time clock value. -/
def now2026 : DateTime := ⟨2026, 10, 12, 9, 30, 0⟩

/-- An achievement of teacher `T1` dated far in the future. -/
def achFuture : Achievement :=
  ⟨1, some "S1", some "T1", some "competition", some "EventX", ⟨9999, 1, 1⟩,
   some "OrgY", some "1st", none, none, none, none, none, none, none, none,
   none, none, none, none, none, none, 0⟩

/-! ## Structural lemmas about `submitRest` -/

lemma append_singleton_ne (l : List Achievement) (a : Achievement) :
    l ≠ l ++ [a] := by
  intro h
  have := congrArg List.length h
  simp at this

lemma append_singleton_inj {l : List Achievement} {x a : Achievement}
    (h : l ++ [x] = l ++ [a]) : a = x := by
  have := List.append_cancel_left h
  simpa using this.symm

lemma submitRest_files (createdAt : Nat) (achs : List Achievement)
    (sess : Session) (form : SubmitForm) (sn : String)
    (cp : Option String) (files1 : List String) :
    (submitRest createdAt achs sess form sn cp files1).files = files1 := by
  unfold submitRest
  repeat' split
  all_goals rfl

lemma submitRest_cases (createdAt : Nat) (achs : List Achievement)
    (sess : Session) (form : SubmitForm) (sn : String)
    (cp : Option String) (files1 : List String) :
    (submitRest createdAt achs sess form sn cp files1).achievements = achs ∨
      ∃ a, (submitRest createdAt achs sess form sn cp files1).achievements =
          achs ++ [a] ∧ a.certificate_path = cp := by
  unfold submitRest
  repeat' split
  all_goals simp [mkAchievement]

lemma submitRest_certificate_path (createdAt : Nat) (achs : List Achievement)
    (sess : Session) (form : SubmitForm) (sn : String)
    (cp : Option String) (files1 : List String) (a : Achievement)
    (ha : (submitRest createdAt achs sess form sn cp files1).achievements =
      achs ++ [a]) :
    a.certificate_path = cp := by
  rcases submitRest_cases createdAt achs sess form sn cp files1 with
    h | ⟨b, hb, hcp⟩
  · rw [h] at ha
    exact absurd ha (append_singleton_ne achs a)
  · rw [hb] at ha
    rw [append_singleton_inj ha]
    exact hcp

lemma submitRest_team_size (createdAt : Nat) (achs : List Achievement)
    (sess : Session) (form : SubmitForm) (sn : String)
    (cp : Option String) (files1 : List String) (ts : Option Int)
    (h : teamSizeStep form.team_size = .ok ts) (a : Achievement)
    (ha : (submitRest createdAt achs sess form sn cp files1).achievements =
      achs ++ [a]) :
    a.team_size = ts := by
  unfold submitRest at ha
  rw [h] at ha
  revert ha
  repeat' split
  all_goals intro ha
  all_goals try exact absurd ha (append_singleton_ne achs a)
  simp_all [mkAchievement]
  exact ha ▸ rfl

lemma submitRest_no_raise (createdAt : Nat) (achs : List Achievement)
    (sess : Session) (form : SubmitForm) (sn : String)
    (cp : Option String) (files1 : List String) (ts : Option Int)
    (h : teamSizeStep form.team_size = .ok ts) (m : String) :
    (submitRest createdAt achs sess form sn cp files1).resp ≠ .raised m := by
  unfold submitRest
  rw [h]
  repeat' split
  all_goals simp_all

lemma submitRest_raise (createdAt : Nat) (achs : List Achievement)
    (sess : Session) (form : SubmitForm) (sn : String)
    (cp : Option String) (files1 : List String)
    (h : teamSizeStep form.team_size = .raisedVE) :
    submitRest createdAt achs sess form sn cp files1 =
      ⟨.raised "ValueError", achs, files1⟩ := by
  unfold submitRest
  rw [h]

/-! ## Claims -/

/-- C5: for every non-empty password `p` (and any salt the primitive may
draw), hashing succeeds and verification accepts `p` against the resulting
hash while rejecting `p ++ "x"`. -/
theorem C5_verify_roundtrip (salt p : String) (hs : '$' ∉ salt.data)
    (hp : p ≠ "") :
    hash_password salt (some p) = .ok (generate_password_hash salt p) ∧
    verify_password (some (generate_password_hash salt p)) (some p) = true ∧
    verify_password (some (generate_password_hash salt p)) (some (p ++ "x")) =
      false := by
  have hx : p ++ "x" ≠ "" := by
    intro h
    have := congrArg String.data h
    simp at this
  have hd : (p.data == (p ++ "x").data) = false := by
    rw [beq_eq_false_iff_ne]
    intro h
    have := congrArg List.length h
    simp at this
  refine ⟨by simp [hash_password, hp], ?_, ?_⟩
  · simp [verify_password, generate_ne_empty salt p, hp,
      check_generate salt p p hs]
  · simp [verify_password, generate_ne_empty salt p, hx,
      check_generate salt p (p ++ "x") hs, hd]

/-- Witness for C5 at salt `"ab"`, password `"pw"`. -/
theorem C5_verify_roundtrip_witness :
    ('$' ∉ "ab".data ∧ "pw" ≠ "") ∧
      (hash_password "ab" (some "pw") = .ok (generate_password_hash "ab" "pw") ∧
       verify_password (some (generate_password_hash "ab" "pw")) (some "pw") =
         true ∧
       verify_password (some (generate_password_hash "ab" "pw"))
         (some ("pw" ++ "x")) = false) :=
  ⟨⟨by decide, by decide⟩,
    C5_verify_roundtrip "ab" "pw" (by decide) (by decide)⟩

/-- C9: `hash_password` fails with the empty-password error on `None` and
on the empty string; `verify_password` is a total Boolean function that
returns `false` for a missing or empty hash or password, and returns
`false` whenever the underlying primitive fails instead of propagating the
failure. -/
theorem C9_credential_error_handling :
    (∀ salt, hash_password salt none = .error "Password cannot be empty or None") ∧
    (∀ salt, hash_password salt (some "") =
      .error "Password cannot be empty or None") ∧
    (∀ p, verify_password none p = false) ∧
    (∀ h, verify_password h none = false) ∧
    (∀ p, verify_password (some "") (some p) = false) ∧
    (∀ h, verify_password (some h) (some "") = false) ∧
    (∀ h p e, check_password_hash h p = .error e →
      verify_password (some h) (some p) = false) := by
  refine ⟨fun _ => rfl, fun _ => rfl, fun p => rfl, ?_, fun p => by
    simp [verify_password], ?_, ?_⟩
  · intro h
    cases h <;> rfl
  · intro h
    by_cases hh : h = "" <;> simp [verify_password, hh]
  · intro h p e he
    by_cases hh : h = "" <;> by_cases hp : p = "" <;>
      simp [verify_password, hh, hp, he]

/-- Witness for C9's conditional conjunct: a malformed stored hash makes
the primitive fail and verification still answers `false`. -/
theorem C9_credential_error_handling_witness :
    check_password_hash "nodollar" "a" = .error "Invalid hash format" ∧
      verify_password (some "nodollar") (some "a") = false :=
  ⟨rfl,
    C9_credential_error_handling.2.2.2.2.2.2 "nodollar" "a"
      "Invalid hash format" rfl⟩

/-- C6: a failed login attempt (student or teacher) renders the same
login template with the same generic invalid-credentials message whether
the identifier is unknown or the password fails verification; the two
failure causes are observationally identical. -/
theorem C6_generic_login_failure :
    (∀ students prev sid pw,
      (∀ s, lookupStudent students sid = some s →
        verify_password (some s.password) pw = false) →
      student_login students prev sid pw =
        .render "student.html" (some "Invalid credentials. Please try again.")) ∧
    (∀ teachers prev tid pw,
      (∀ t, lookupTeacher teachers tid = some t →
        verify_password (some t.password) pw = false) →
      teacher_login teachers prev tid pw =
        .render "teacher.html" (some "Invalid credentials. Please try again.")) := by
  constructor
  · intro students prev sid pw h
    unfold student_login
    cases hl : lookupStudent students sid with
    | none => rfl
    | some s => simp [h s hl]
  · intro teachers prev tid pw h
    unfold teacher_login
    cases hl : lookupTeacher teachers tid with
    | none => rfl
    | some t => simp [h t hl]

/-- Witness for C6: both login failures at concrete inputs. -/
theorem C6_generic_login_failure_witness :
    student_login [] emptySession (some "a") (some "p") =
      .render "student.html" (some "Invalid credentials. Please try again.") ∧
    teacher_login [] emptySession (some "a") (some "p") =
      .render "teacher.html" (some "Invalid credentials. Please try again.") :=
  ⟨C6_generic_login_failure.1 [] emptySession (some "a") (some "p")
      (fun s h => by simp [lookupStudent] at h),
    C6_generic_login_failure.2 [] emptySession (some "a") (some "p")
      (fun t h => by simp [lookupTeacher] at h)⟩

/-- C8: with an active teacher session, a submission whose student
identifier resolves to no `Student` re-renders the form with the
student-does-not-exist message; the achievement table and the upload
directory are exactly unchanged. -/
theorem C8_unknown_student_rejected (now : DateTime) (createdAt : Nat)
    (students : List Student) (achs : List Achievement) (files : List String)
    (sess : Session) (form : SubmitForm)
    (hlog : sess.logged_in = true) (htid : falsyOpt sess.teacher_id = false)
    (hstud : lookupStudent students form.student_id = none) :
    submit_achievements now createdAt students achs files sess form =
      ⟨.render "submit_achievements.html"
          (some "Student ID does not exist in the system.") none,
        achs, files⟩ := by
  simp [submit_achievements, hlog, htid, hstud]

/-- Witness for C8 at concrete inputs (no registered students). -/
theorem C8_unknown_student_rejected_witness :
    submit_achievements now0 0 [] [] [] teacherSession baseForm =
      ⟨.render "submit_achievements.html"
          (some "Student ID does not exist in the system.") none,
        [], []⟩ :=
  C8_unknown_student_rejected now0 0 [] [] [] teacherSession baseForm
    rfl rfl rfl

/-- C1 counterexample: a session established by a student login (logged-in
flag set, no teacher identifier) is not an active teacher session, yet
both `/teacher-dashboard` and `/all-achievements` render their views
instead of redirecting to the teacher login. -/
theorem C1_counterexample :
    activeTeacherSession studentSession = false ∧
    teacher_dashboard now2026 [] studentSession =
      .render ⟨none, none, none⟩ ⟨0, 0, 0⟩ [] ∧
    all_achievements [] studentSession = .render [] := by
  refine ⟨rfl, by decide, rfl⟩

/-- C1 amended: the two handlers redirect to the teacher login exactly
when the session lacks the logged-in flag; any logged-in session — also
one established by a student login — reaches the rendered view, scoped to
the session's (possibly absent) teacher identifier. -/
theorem C1_amended_session_gate (now : DateTime) (achs : List Achievement)
    (sess : Session) :
    (sess.logged_in = false →
      teacher_dashboard now achs sess = .redirect "teacher" ∧
      all_achievements achs sess = .redirect "teacher") ∧
    (sess.logged_in = true →
      (∀ ep, teacher_dashboard now achs sess ≠ .redirect ep) ∧
      (∀ ep, all_achievements achs sess ≠ .redirect ep)) := by
  constructor
  · intro h
    constructor <;> simp [teacher_dashboard, all_achievements, h]
  · intro h
    have e : (!sess.logged_in) = false := by rw [h]; rfl
    constructor
    · intro ep
      unfold teacher_dashboard
      rw [e]
      simp
    · intro ep
      unfold all_achievements
      rw [e]
      simp

/-- Witness for C1 amended: the empty session is redirected by both
handlers. -/
theorem C1_amended_session_gate_witness :
    teacher_dashboard now2026 [] emptySession = .redirect "teacher" ∧
    all_achievements [] emptySession = .redirect "teacher" :=
  (C1_amended_session_gate now2026 [] emptySession).1 rfl

/-- C2 counterexample: with teacher `T1` logged in and student `S1`
registered, a submission carrying a valid `cert.pdf` certificate and the
unparseable date `2024-13-40` returns the date-format error and creates no
record, but the certificate file has already been stored in the upload
directory — contradicting the claim that no certificate file is stored. -/
theorem C2_counterexample :
    submit_achievements now0 0 [studentS1] [] [] teacherSession
        { baseForm with
            certificate := some ⟨"cert.pdf"⟩
            achievement_date := some "2024-13-40" } =
      ⟨.render "submit_achievements.html"
          (some "Invalid date format. Please use YYYY-MM-DD.") none,
        [], ["20240102030405_cert.pdf"]⟩ ∧
    (["20240102030405_cert.pdf"] : List String) ≠ [] := by
  refine ⟨by decide, by decide⟩

/-- C2 amended: under an active teacher session with a resolvable student,
a team-size field that does not raise, and a non-empty date field that
fails to parse as `YYYY-MM-DD`, the handler returns the date-format error
message and creates no Achievement record; the upload directory however
keeps whatever the earlier certificate step already saved (`files1`),
which strictly extends the previous state when a certificate with an
allowed extension was attached. -/
theorem C2_amended_date_parse_failure (now : DateTime) (createdAt : Nat)
    (students : List Student) (achs : List Achievement) (files : List String)
    (sess : Session) (form : SubmitForm) (st : Student)
    (cpath : Option String) (files1 : List String) (ds : String)
    (hlog : sess.logged_in = true) (htid : falsyOpt sess.teacher_id = false)
    (hstud : lookupStudent students form.student_id = some st)
    (hcert : certStep now files form.certificate = .ok cpath files1)
    (hts : teamSizeStep form.team_size ≠ .raisedVE)
    (hdate : form.achievement_date = some ds) (hne : ds ≠ "")
    (hparse : parse_date ds = none) :
    submit_achievements now createdAt students achs files sess form =
      ⟨.render "submit_achievements.html"
          (some "Invalid date format. Please use YYYY-MM-DD.") none,
        achs, files1⟩ := by
  have hmain : submit_achievements now createdAt students achs files sess form =
      submitRest createdAt achs sess form st.student_name cpath files1 := by
    simp [submit_achievements, hlog, htid, hstud, hcert]
  rw [hmain]
  unfold submitRest
  cases h2 : teamSizeStep form.team_size with
  | raisedVE => exact absurd h2 hts
  | ok ts =>
    rw [hdate]
    simp [hne, hparse]

/-- Witness for C2 amended at concrete inputs (no certificate attached,
so the saved-file state is unchanged). -/
theorem C2_amended_date_parse_failure_witness :
    submit_achievements now0 0 [studentS1] [] [] teacherSession
        { baseForm with achievement_date := some "2024-13-40" } =
      ⟨.render "submit_achievements.html"
          (some "Invalid date format. Please use YYYY-MM-DD.") none,
        [], []⟩ :=
  C2_amended_date_parse_failure now0 0 [studentS1] [] [] teacherSession
    { baseForm with achievement_date := some "2024-13-40" } studentS1
    none [] "2024-13-40" rfl rfl rfl rfl (by decide) rfl (by decide) rfl

/-- C3 counterexample: an otherwise valid submission whose `team_size`
field is `"abc"` makes `int(team_size_raw)` raise a `ValueError` that
escapes the handler — the team-size handling is not total and is not
recovered inside the handler's failure boundary. -/
theorem C3_counterexample :
    (submit_achievements now0 0 [studentS1] [] [] teacherSession
        { baseForm with team_size := some "abc" }).resp =
      .raised "ValueError" := by
  decide

/-- C3 amended: under an active teacher session with a resolvable student
and a non-rejecting certificate step, a blank or absent `team_size` never
raises and is stored as absent (not zero) in any created record; but a
provided `team_size` that does not parse as an integer raises an uncaught
`ValueError` out of the handler (leaving the store unchanged and the
upload directory as the certificate step left it). -/
theorem C3_amended_team_size (now : DateTime) (createdAt : Nat)
    (students : List Student) (achs : List Achievement) (files : List String)
    (sess : Session) (form : SubmitForm) (st : Student)
    (cpath : Option String) (files1 : List String)
    (hlog : sess.logged_in = true) (htid : falsyOpt sess.teacher_id = false)
    (hstud : lookupStudent students form.student_id = some st)
    (hcert : certStep now files form.certificate = .ok cpath files1) :
    ((form.team_size = none ∨
        ∃ s, form.team_size = some s ∧ (s = "" ∨ pyStrip s.data = [])) →
      (∀ m, (submit_achievements now createdAt students achs files sess
        form).resp ≠ .raised m) ∧
      (∀ a, (submit_achievements now createdAt students achs files sess
          form).achievements = achs ++ [a] → a.team_size = none)) ∧
    (∀ s, form.team_size = some s → s ≠ "" → pyStrip s.data ≠ [] →
      pyInt s = none →
      submit_achievements now createdAt students achs files sess form =
        ⟨.raised "ValueError", achs, files1⟩) := by
  have hmain : submit_achievements now createdAt students achs files sess form =
      submitRest createdAt achs sess form st.student_name cpath files1 := by
    simp [submit_achievements, hlog, htid, hstud, hcert]
  constructor
  · intro hblank
    have hts : teamSizeStep form.team_size = .ok none := by
      rcases hblank with h | ⟨s, hs, h | h⟩ <;> simp [teamSizeStep, *]
    rw [hmain]
    exact ⟨fun m => submitRest_no_raise createdAt achs sess form
        st.student_name cpath files1 none hts m,
      fun a ha => submitRest_team_size createdAt achs sess form
        st.student_name cpath files1 none hts a ha⟩
  · intro s hs hne hstrip hint
    have hts : teamSizeStep form.team_size = .raisedVE := by
      simp [teamSizeStep, hs, hne, hstrip, hint]
    rw [hmain]
    exact submitRest_raise createdAt achs sess form st.student_name
      cpath files1 hts

/-- Witness for C3 amended: the blank case at concrete inputs. -/
theorem C3_amended_team_size_witness :
    (submit_achievements now0 0 [studentS1] [] [] teacherSession
        baseForm).resp ≠ .raised "ValueError" :=
  ((C3_amended_team_size now0 0 [studentS1] [] [] teacherSession baseForm
      studentS1 none [] rfl rfl rfl rfl).1 (Or.inl rfl)).1 "ValueError"

/-- C4 counterexample: at request date 2026-10-12, an achievement of
teacher `T1` dated 9999-01-01 is counted by the dashboard's `this_week`
aggregate (which only bounds the date from below), while the trailing
7-day window of the claim contains no achievement — so `this_week` is not
the count of achievements within the trailing 7 days. -/
theorem C4_counterexample :
    teacher_dashboard now2026 [achFuture] teacherSession =
      .render ⟨some "T1", some "Tia", some "CS"⟩ ⟨1, 1, 1⟩ [achFuture] ∧
    specTrailingWeekCount now2026.dateOf [achFuture] "T1" = 0 ∧
    (1 : Nat) ≠ 0 := by
  refine ⟨by decide, by decide, by decide⟩

/-- C4 amended: with an active teacher session for `t`, the dashboard
renders exactly the four aggregates scoped to `t`: the total count, the
distinct-student count, the count of achievements dated on or after
(request date − 7 days) — with no upper bound, so future-dated
achievements are included — and the 5 most-recently-created achievements
ordered by creation timestamp descending with ties in insertion order. -/
theorem C4_amended_dashboard_aggregates (now : DateTime)
    (achs : List Achievement) (sess : Session) (t : String)
    (h1 : sess.logged_in = true) (h2 : sess.teacher_id = some t) :
    teacher_dashboard now achs sess =
      .render ⟨some t, sess.teacher_name, sess.teacher_dept⟩
        ⟨specTotalCount achs t, specDistinctStudents achs t,
          specSinceCount (subDays now.dateOf 7) achs t⟩
        (specRecent5 achs t) := by
  have e : (!sess.logged_in) = false := by rw [h1]; rfl
  have hdistinct : specDistinctStudents achs t =
      ((achievementsOfTeacher achs t).map (fun a => a.student_id)).dedup.length := by
    rw [specDistinctStudents, List.card_toFinset]
  have hcomm : ∀ (l : List Achievement) (p q : Achievement → Bool),
      l.filter (fun a => p a && q a) = l.filter (fun a => q a && p a) := by
    intro l p q
    induction l with
    | nil => rfl
    | cons x xs ih => simp [List.filter, Bool.and_comm, ih]
  have hweek : specSinceCount (subDays now.dateOf 7) achs t =
      (achs.filter (fun a =>
        tidMatch (some t) a &&
          dateLeB (subDays now.dateOf 7) a.achievement_date)).length := by
    rw [specSinceCount, achievementsOfTeacher, List.filter_filter]
    rw [hcomm achs (fun a => dateLeB (subDays now.dateOf 7) a.achievement_date)
      (fun a => a.teacher_id == some t)]
    rfl
  unfold teacher_dashboard
  rw [e]
  simp only [if_false]
  rw [h2, hdistinct, hweek]
  rfl

/-- Witness for C4 amended at concrete inputs. -/
theorem C4_amended_dashboard_aggregates_witness :
    teacher_dashboard now2026 [achFuture] teacherSession =
      .render ⟨some "T1", some "Tia", some "CS"⟩
        ⟨specTotalCount [achFuture] "T1", specDistinctStudents [achFuture] "T1",
          specSinceCount (subDays now2026.dateOf 7) [achFuture] "T1"⟩
        (specRecent5 [achFuture] "T1") :=
  C4_amended_dashboard_aggregates now2026 [achFuture] teacherSession "T1"
    rfl rfl

/-- C7 counterexample: a submission with certificate `evil.exe` (extension
not on the allow-list) but an unresolvable student identifier is rejected
with the student-does-not-exist message, not the invalid-file-type message
— so, quantified over all submissions, rejection with the
invalid-file-type message does not hold if and only if the extension is
disallowed. -/
theorem C7_counterexample :
    allowed_file "evil.exe" = false ∧
    submit_achievements now0 0 [] [] [] teacherSession
        { baseForm with certificate := some ⟨"evil.exe"⟩ } =
      ⟨.render "submit_achievements.html"
          (some "Student ID does not exist in the system.") none, [], []⟩ ∧
    HResp.render "submit_achievements.html"
        (some "Student ID does not exist in the system.") none ≠
      HResp.render "submit_achievements.html"
        (some "Invalid file type. Please upload PDF, PNG, JPG, or JPEG files.")
        none := by
  refine ⟨by decide, by decide, by decide⟩

/-- C7 amended: for submissions holding an active teacher session whose
student resolves and whose certificate part carries a non-empty filename,
the submission is rejected with the invalid-file-type message, with the
store and upload directory unchanged, if and only if the filename's final
extension (case-insensitively) is not in {pdf, png, jpg, jpeg}; when the
extension is allowed, the saved file is named
`<timestamp>_<sanitized-filename>` with a 14-digit all-digit timestamp,
and any created record's certificate path is `uploads/` followed by that
name. -/
theorem C7_amended_certificate_policy (now : DateTime) (createdAt : Nat)
    (students : List Student) (achs : List Achievement) (files : List String)
    (sess : Session) (form : SubmitForm) (st : Student) (file : FilePart)
    (hlog : sess.logged_in = true) (htid : falsyOpt sess.teacher_id = false)
    (hstud : lookupStudent students form.student_id = some st)
    (hfile : form.certificate = some file) (hname : file.filename ≠ "") :
    (allowed_file file.filename = false ↔
      submit_achievements now createdAt students achs files sess form =
        ⟨.render "submit_achievements.html"
            (some "Invalid file type. Please upload PDF, PNG, JPG, or JPEG files.")
            none,
          achs, files⟩) ∧
    (allowed_file file.filename = true →
      (formatTimestamp now).length = 14 ∧
      (formatTimestamp now).data.all Char.isDigit = true ∧
      (submit_achievements now createdAt students achs files sess form).files =
        files ++ [formatTimestamp now ++ "_" ++ secure_filename file.filename] ∧
      ((submit_achievements now createdAt students achs files sess
          form).achievements = achs ∨
        ∃ a, (submit_achievements now createdAt students achs files sess
            form).achievements = achs ++ [a] ∧
          a.certificate_path = some ("uploads/" ++
            (formatTimestamp now ++ "_" ++ secure_filename file.filename)))) := by
  cases hall : allowed_file file.filename with
  | false =>
    have hcert : certStep now files form.certificate = .rejected := by
      simp [certStep, hfile, hname, hall]
    have hres : submit_achievements now createdAt students achs files sess form =
        ⟨.render "submit_achievements.html"
            (some "Invalid file type. Please upload PDF, PNG, JPG, or JPEG files.")
            none,
          achs, files⟩ := by
      simp [submit_achievements, hlog, htid, hstud, hcert]
    exact ⟨⟨fun _ => hres, fun _ => rfl⟩,
      fun h => absurd h (by simp [hall])⟩
  | true =>
    have hcert : certStep now files form.certificate =
        .ok (some ("uploads/" ++
            (formatTimestamp now ++ "_" ++ secure_filename file.filename)))
          (files ++ [formatTimestamp now ++ "_" ++ secure_filename file.filename]) := by
      simp [certStep, hfile, hname, hall]
    have hmain : submit_achievements now createdAt students achs files sess form =
        submitRest createdAt achs sess form st.student_name
          (some ("uploads/" ++
            (formatTimestamp now ++ "_" ++ secure_filename file.filename)))
          (files ++ [formatTimestamp now ++ "_" ++ secure_filename file.filename]) := by
      simp [submit_achievements, hlog, htid, hstud, hcert]
    constructor
    · constructor
      · intro h
        exact absurd h (by simp [hall])
      · intro hres
        have hf := congrArg SubmitResult.files hres
        rw [hmain, submitRest_files] at hf
        have hlen := congrArg List.length hf
        simp at hlen
    · intro _
      refine ⟨formatTimestamp_length now, formatTimestamp_digits now, ?_, ?_⟩
      · rw [hmain, submitRest_files]
      · rcases submitRest_cases createdAt achs sess form st.student_name
            (some ("uploads/" ++
              (formatTimestamp now ++ "_" ++ secure_filename file.filename)))
            (files ++ [formatTimestamp now ++ "_" ++ secure_filename file.filename])
          with h | ⟨a, ha, hcp⟩
        · left
          rw [hmain]
          exact h
        · right
          exact ⟨a, by rw [hmain]; exact ha, hcp⟩

/-- Witness for C7 amended: a `cert.pdf` upload at the concrete clock
stores `20240102030405_cert.pdf`. -/
theorem C7_amended_certificate_policy_witness :
    (submit_achievements now0 0 [studentS1] [] [] teacherSession
        { baseForm with certificate := some ⟨"cert.pdf"⟩ }).files =
      ["20240102030405_cert.pdf"] := by
  have h := (C7_amended_certificate_policy now0 0 [studentS1] [] [] teacherSession
      { baseForm with certificate := some ⟨"cert.pdf"⟩ } studentS1 ⟨"cert.pdf"⟩
      rfl rfl rfl rfl (by decide)).2 (by decide)
  exact h.2.2.1.trans (by decide)

/-- C10: a `certificate` file part with an empty filename behaves exactly
as an absent part: the extension check is skipped, the upload directory is
untouched, and any created record carries no certificate path. -/
theorem C10_empty_filename_ignored :
    (∀ now createdAt students achs files sess (form : SubmitForm),
      submit_achievements now createdAt students achs files sess
          { form with certificate := some ⟨""⟩ } =
        submit_achievements now createdAt students achs files sess
          { form with certificate := none }) ∧
    (∀ now createdAt students achs files sess (form : SubmitForm),
      form.certificate = some ⟨""⟩ →
      (submit_achievements now createdAt students achs files sess form).files =
        files ∧
      ∀ a, (submit_achievements now createdAt students achs files sess
          form).achievements = achs ++ [a] → a.certificate_path = none) := by
  constructor
  · intro now createdAt students achs files sess form
    rfl
  · intro now createdAt students achs files sess form hcert
    have hcs : certStep now files form.certificate = .ok none files := by
      rw [hcert]
      rfl
    unfold submit_achievements
    split
    · exact ⟨rfl, fun a ha => absurd ha (append_singleton_ne achs a)⟩
    · split
      · exact ⟨rfl, fun a ha => absurd ha (append_singleton_ne achs a)⟩
      · rw [hcs]
        refine ⟨submitRest_files _ _ _ _ _ _ _, ?_⟩
        intro a ha
        exact submitRest_certificate_path _ _ _ _ _ _ _ a ha

/-- Witness for C10's conditional conjunct at concrete inputs. -/
theorem C10_empty_filename_ignored_witness :
    (submit_achievements now0 0 [studentS1] [] [] teacherSession
        { baseForm with certificate := some ⟨""⟩ }).files = [] :=
  ((C10_empty_filename_ignored.2 now0 0 [studentS1] [] [] teacherSession
      { baseForm with certificate := some ⟨""⟩ }) rfl).1
